import Mathlib

/-!
Shallow embedding of the decision logic of `src/app.py` (HillTech-Growers
smart-agriculture app) and proofs about it.

Modelling conventions:
- Python floats are modelled as exact rationals `ℚ`.
- Python `round(x)` (banker's rounding, returning an int) is `pyRound`;
  `round(x, 2)` is `round2`; `int(x)` (truncation toward zero) is `pyInt`.
- A fallible upstream fetch is modelled by `Option`/`Except`: `none` /
  `Except.error` stands for the Python exception or `None` outcome.
- Format strings are modelled by string concatenation with `toString` in
  place of Python `str` interpolation.
-/

/-- Banker's rounding to the nearest integer (Python `round(x)`):
round half to even. -/
def pyRound (q : ℚ) : ℤ :=
  if q - ⌊q⌋ < 1/2 then ⌊q⌋
  else if 1/2 < q - ⌊q⌋ then ⌊q⌋ + 1
  else if ⌊q⌋ % 2 = 0 then ⌊q⌋ else ⌊q⌋ + 1

/-- Python `round(x, 2)`: round to two decimal places (half to even). -/
def round2 (q : ℚ) : ℚ := (pyRound (q * 100) : ℚ) / 100

/-- Python `int(x)`: truncation toward zero. -/
def pyInt (q : ℚ) : ℤ := if 0 ≤ q then ⌊q⌋ else ⌈q⌉

/-- Alert severity levels (`"low" | "medium" | "high"` in `app.py`). -/
inductive Severity where
  | low
  | medium
  | high
deriving DecidableEq, Repr

/-- Alert categories used by the three rule trees. -/
inductive Category where
  | weather
  | irrigation
  | water
deriving DecidableEq, Repr

/-- Current-weather payload as returned by `get_weather_data` (always fully
populated; on provider failure the fixed default `{22, 70, 0, 5}` is
substituted upstream). -/
structure Weather where
  temperature : ℚ
  humidity : ℚ
  rainfall : ℚ
  wind_speed : ℚ
deriving DecidableEq, Repr

/-- Soil-sensor payload as returned by a successful `get_soil_data` call;
the failed call is modelled as `Option.none` (the Python `None` sentinel). -/
structure Soil where
  moisture : ℚ
  temperature : ℚ
  humidity : ℚ
deriving DecidableEq, Repr

/-- One entry of the forecast list built by `get_weather_forecast`. -/
structure ForecastPoint where
  time : String
  rain : ℚ
  description : String
  humidity : ℚ
deriving DecidableEq, Repr

/-- Structured alert as built by the rule trees in `app.py`. -/
structure Alert where
  type : String
  title : String
  message : String
  severity : Severity
  category : Category
  timestamp : String
  recommendation : String
  icon : String
deriving DecidableEq, Repr

/-- Tank snapshot returned by `get_tank_snapshot` (fields in the same units
and with the same rounding as the Python dict). -/
structure TankSnapshot where
  ultrasonic_cm : ℚ
  height_cm : ℚ
  volume_cm3 : ℤ
  capacity_cm3 : ℤ
  percent : ℤ
deriving DecidableEq, Repr

/-- Tank internal height in cm (`TANK_H1_CM = 9.5` in `app.py`). -/
def TANK_H1_CM : ℚ := 19/2

/-- Tank radius in cm (`TANK_R_CM = 4.85` in `app.py`). -/
def TANK_R_CM : ℚ := 97/20

/-- The approximation of pi used by the code (`PI_CONST = 22/7`). -/
def PI_CONST : ℚ := 22/7

/-- Embedding of `get_tank_snapshot` (src/app.py lines 230-258), as a
function of the raw ultrasonic reading `u` read from the device.  The
transport failure (`requests` raising) is handled at the call sites, which
take an `Option TankSnapshot`. -/
def get_tank_snapshot (u : ℚ) : TankSnapshot :=
  let H1 := TANK_H1_CM
  let R := TANK_R_CM
  let PI := PI_CONST
  let H := max 0 (min H1 (H1 - u))
  let base_area := PI * R * R
  let vol_cm3 := base_area * H
  let cap_cm3 := base_area * H1
  let percent := H / H1 * 100
  { ultrasonic_cm := round2 u
    height_cm := round2 H
    volume_cm3 := pyRound vol_cm3
    capacity_cm3 := pyRound cap_cm3
    percent := pyRound percent }

/-- Sum of the `rain` fields of a forecast list
(`sum(item["rain"] for item in forecast)`). -/
def totalRain (fc : List ForecastPoint) : ℚ := (fc.map (fun i => i.rain)).sum

/-- Maximum of the `rain` fields, with default `0` on the empty list
(`max((item["rain"] for item in forecast), default=0)`). -/
def maxRain : List ForecastPoint → ℚ
  | [] => 0
  | i :: rest => rest.foldl (fun acc j => max acc j.rain) i.rain

/-- Embedding of `check_rain_alert` (src/app.py lines 290-372).  The
upstream fetches are passed as arguments: `fc` is the forecast list, `w`
the current weather (`get_weather_data` always succeeds, substituting the
default on provider failure), `soil` the optional soil payload, and `ts`
the timestamp string produced by `now_utc_iso()`. -/
def check_rain_alert (fc : List ForecastPoint) (w : Weather)
    (soil : Option Soil) (ts : String) : Option Alert :=
  match fc with
  | [] => none
  | _ :: _ =>
    let total_rain := totalRain fc
    let max_rain := maxRain fc
    let soil_moisture := soil.map Soil.moisture
    let t := w.temperature
    let h := w.humidity
    let r := w.rainfall
    let wd := w.wind_speed
    if total_rain > 5 ∨ max_rain > 2 then
      some { type := "rain_alert"
             title := "🌧 Heavy Rain Alert"
             message := "Warning! Heavy rainfall expected today. Current: "
               ++ toString t ++ "°C, " ++ toString h ++ "%, " ++ toString r
               ++ "mm, " ++ toString wd ++ " km/h."
             severity := Severity.high
             category := Category.weather
             timestamp := ts
             recommendation := "Cover young plants; delay irrigation."
             icon := "🌧" }
    else if total_rain > 1 ∨ max_rain > 1/2 then
      some { type := "rain_alert"
             title := "☔ Rain Expected Today"
             message := "Rain expected. Conditions: " ++ toString t ++ "°C, "
               ++ toString h ++ "%, " ++ toString r ++ "mm, " ++ toString wd
               ++ " km/h."
             severity := Severity.medium
             category := Category.weather
             timestamp := ts
             recommendation := "Skip irrigation today; recheck tomorrow."
             icon := "☔" }
    else if total_rain > 1/10 then
      some { type := "rain_alert"
             title := "🌫 Uncertain Weather"
             message := match soil_moisture with
               | none => "Light rain chance."
               | some m => "Light rain chance. Soil " ++ toString (pyInt m) ++ "%."
             severity := Severity.low
             category := Category.weather
             timestamp := ts
             recommendation := "Check soil before irrigating."
             icon := "🌫" }
    else
      match soil_moisture with
      | some m =>
        if m < 40 then
          some { type := "irrigation_alert"
                 title := "🌤 No Rain, Irrigation Needed"
                 message := "No rain expected. Soil " ++ toString (pyInt m) ++ "%."
                 severity := Severity.medium
                 category := Category.irrigation
                 timestamp := ts
                 recommendation := "Follow normal irrigation schedule."
                 icon := "🌤" }
        else
          some { type := "weather_update"
                 title := "🌤 Good Weather Day"
                 message := "Clear weather; soil moisture adequate."
                 severity := Severity.low
                 category := Category.weather
                 timestamp := ts
                 recommendation := "Continue regular activities."
                 icon := "🌤" }
      | none =>
        some { type := "weather_update"
               title := "🌤 Good Weather Day"
               message := "Clear weather."
               severity := Severity.low
               category := Category.weather
               timestamp := ts
               recommendation := "Continue regular activities."
               icon := "🌤" }

/-- The tank-alert message built once in `check_water_tank_alert` from the
live snapshot values and shared by every branch. -/
def tank_alert_message (p a c : ℤ) : String :=
  "Water tank is at " ++ toString p ++ "% (" ++ toString a ++ " cm³ / "
    ++ toString c ++ " cm³)."

/-- Embedding of `check_water_tank_alert` (src/app.py lines 380-436).
`osnap = none` models the `get_tank_snapshot()` call raising (ESP32 read
failure), in which case the Python function returns `None`. -/
def check_water_tank_alert (osnap : Option TankSnapshot) (ts : String) :
    Option Alert :=
  match osnap with
  | none => none
  | some snap =>
    let p := snap.percent
    let msg := tank_alert_message p snap.volume_cm3 snap.capacity_cm3
    if p ≥ 90 then
      some { type := "water_alert", category := Category.water, timestamp := ts
             message := msg, icon := "💧"
             title := "💧 Water Tank Full"
             severity := Severity.high
             recommendation := "Turn off supply; check for leaks." }
    else if p ≤ 20 then
      some { type := "water_alert", category := Category.water, timestamp := ts
             message := msg, icon := "💧"
             title := "⚠️ Water Tank Low"
             severity := Severity.high
             recommendation := "Refill immediately." }
    else if p ≤ 40 then
      some { type := "water_alert", category := Category.water, timestamp := ts
             message := msg, icon := "💧"
             title := "🔔 Water Tank Getting Low"
             severity := Severity.medium
             recommendation := "Plan a refill soon." }
    else
      some { type := "water_alert", category := Category.water, timestamp := ts
             message := msg, icon := "💧"
             title := "💧 Water Tank Status Update"
             severity := Severity.low
             recommendation := "No immediate action required." }

/-- Weather summary fragment `"Wx: {t}°C, {h}%, {w} km/h."` used by the
irrigation-recommendation messages. -/
def wx_summary (t h wind : ℚ) : String :=
  "Wx: " ++ toString t ++ "°C, " ++ toString h ++ "%, " ++ toString wind
    ++ " km/h."

/-- Embedding of `check_weather_irrigation_recommendation` (src/app.py
lines 439-529).  `fetched = Except.error ()` models any unexpected
exception raised while fetching or combining the inputs (the Python
`except` branch); `Except.ok` carries the three upstream results.  The
function is total: it returns an `Alert` in every case, which models the
Python function never raising. -/
def check_weather_irrigation_recommendation
    (fetched : Except Unit (Weather × Option Soil × List ForecastPoint))
    (ts : String) : Alert :=
  match fetched with
  | Except.error _ =>
    { type := "irrigation_recommendation"
      title := "⚠️ Weather Data Unavailable"
      message := "Unable to fetch weather data."
      severity := Severity.medium
      category := Category.irrigation
      timestamp := ts
      recommendation := "Check conditions manually."
      icon := "⚠️" }
  | Except.ok (w, soil, fc) =>
    let total_rain := if fc.isEmpty then 0 else totalRain fc
    let max_rain := maxRain fc
    let t := w.temperature
    let h := w.humidity
    let curr_rain := w.rainfall
    let wind := w.wind_speed
    if total_rain > 5 ∨ max_rain > 2 ∨ curr_rain > 1 then
      { type := "irrigation_recommendation"
        title := "🌧 Heavy Rain Alert - No Irrigation"
        message := match soil with
          | none => "Heavy rain expected. " ++ wx_summary t h wind
          | some s => "Heavy rain expected. " ++ wx_summary t h wind
              ++ " Soil: " ++ toString (pyInt s.moisture) ++ "%, "
              ++ toString (pyInt s.temperature) ++ "°C, "
              ++ toString (pyInt s.humidity) ++ "%."
        severity := Severity.high
        category := Category.irrigation
        timestamp := ts
        recommendation := "Skip irrigation today."
        icon := "🌧" }
    else if total_rain > 1 ∨ max_rain > 1/2 ∨ curr_rain > 1/10 then
      { type := "irrigation_recommendation"
        title := "🌦️ Medium Rain - Limited Irrigation"
        message := "May rain today. Reduce irrigation by ~50%. "
          ++ wx_summary t h wind
        severity := Severity.medium
        category := Category.irrigation
        timestamp := ts
        recommendation := "Use minimal irrigation and monitor."
        icon := "🌦️" }
    else
      match soil with
      | none =>
        { type := "irrigation_recommendation"
          title := "🌤️ Normal Weather - Sensor Offline"
          message := "Normal conditions. Soil sensor data unavailable. "
            ++ wx_summary t h wind
          severity := Severity.low
          category := Category.irrigation
          timestamp := ts
          recommendation := "Check sensor and follow your usual schedule."
          icon := "🌤️" }
      | some _ =>
        if total_rain = 0 ∧ curr_rain = 0 ∧ t > 25 ∧ h < 60 then
          { type := "irrigation_recommendation"
            title := "☀️ Perfect Irrigation Day"
            message := "Sunny and dry. " ++ wx_summary t h wind
            severity := Severity.low
            category := Category.irrigation
            timestamp := ts
            recommendation := "Proceed with normal schedule."
            icon := "☀️" }
        else
          { type := "irrigation_recommendation"
            title := "🌤️ Normal Weather - Regular Irrigation"
            message := "Normal conditions. " ++ wx_summary t h wind
            severity := Severity.low
            category := Category.irrigation
            timestamp := ts
            recommendation := "Follow your regular schedule."
            icon := "🌤️" }

/-- Embedding of `_moisture_bucket_from_pct` (src/app.py lines 724-737).
The Python function takes any value and returns `"unknown"` when
`float(pct)` fails; that parse failure is modelled by `none` (in the app
the argument is `soil.get("moisture")`, a float whenever soil data is
present). -/
def _moisture_bucket_from_pct (pct : Option ℚ) : String :=
  match pct with
  | none => "unknown"
  | some v =>
    if v ≥ 90 then "flooded"
    else if v > 70 then "high"
    else if v ≥ 40 then "medium"
    else "low"

/-- Normalisation `_norm` from the dashboard filter: strip and lowercase. -/
def _norm (s : String) : String := s.trim.toLower

/-- Embedding of `_tokenize_categories`: split a categorical cell on the
separators `/ , ; | -`, normalise, and drop empty tokens. -/
def _tokenize_categories (cell : String) : List String :=
  ((cell.split fun c =>
      c == '/' || c == ',' || c == ';' || c == '|' || c == '-').map _norm).filter
    (fun tk => tk ≠ "")

/-- One catalog row as consumed by the dashboard crop filter.  Numeric
cells are modelled after the `_num` coercion has been applied: `none`
stands for a missing or unparseable cell (pandas `NaN`), `some q` for the
parsed number (for an `"a-b"` range cell, its midpoint).  `crop = none`
models a row whose `Crop` cell is `NaN` (the `notna` check). -/
structure CropRecord where
  crop : Option String
  soil_type : String
  soil_moisture : String
  min_temp : Option ℚ
  max_temp : Option ℚ
  min_humidity : Option ℚ
  max_humidity : Option ℚ
deriving DecidableEq, Repr

/-- Which optional columns exist in the loaded catalog; each predicate of
the filter is applied only when its column exists. -/
structure CatalogSchema where
  has_min_temp : Bool
  has_max_temp : Bool
  has_min_humidity : Bool
  has_max_humidity : Bool
  has_soil_moisture : Bool
  has_soil_type : Bool
  has_crop : Bool
deriving DecidableEq, Repr

/-- Comparison `cell <= v` on an optional numeric cell: a missing/NaN cell
compares false, as in pandas. -/
def cellLe (cell : Option ℚ) (v : ℚ) : Bool :=
  match cell with
  | none => false
  | some c => decide (c ≤ v)

/-- Comparison `cell >= v` on an optional numeric cell (NaN compares
false). -/
def cellGe (cell : Option ℚ) (v : ℚ) : Bool :=
  match cell with
  | none => false
  | some c => decide (v ≤ c)

/-- The conjunctive row mask of the dashboard crop filter (src/app.py
lines 764-792): each predicate is applied only when its column exists. -/
def crop_row_matches (schema : CatalogSchema) (soil : Soil)
    (live_bucket : String) (selected_soil : Option String)
    (row : CropRecord) : Bool :=
  (!schema.has_min_temp || cellLe row.min_temp soil.temperature)
  && (!schema.has_max_temp || cellGe row.max_temp soil.temperature)
  && (!schema.has_min_humidity || cellLe row.min_humidity soil.humidity)
  && (!schema.has_max_humidity || cellGe row.max_humidity soil.humidity)
  && (!(schema.has_soil_moisture && live_bucket != "unknown")
      || (_tokenize_categories row.soil_moisture).any fun tk =>
           tk == live_bucket)
  && (match selected_soil with
      | some sel => !schema.has_soil_type || (_norm row.soil_type == _norm sel)
      | none => true)
  && (!schema.has_crop || row.crop.isSome)

/-- The crop filter applied to the whole catalog, in catalog order. -/
def crop_filter (schema : CatalogSchema) (catalog : List CropRecord)
    (soil : Soil) (selected_soil : Option String) : List CropRecord :=
  catalog.filter
    (crop_row_matches schema soil
      (_moisture_bucket_from_pct (some soil.moisture)) selected_soil)

/-- The part of the `dashboard` route response that depends on the crop
recommendation logic (src/app.py lines 671-812): the recommended rows, the
displayed moisture category, and whether the "No live soil sensor data"
warning is flashed (the caller-visible signal distinct from an empty match
result). -/
structure DashboardView where
  crops : List CropRecord
  soil_category : String
  no_soil_warning : Bool
deriving DecidableEq, Repr

/-- Embedding of the recommendation path of the `dashboard` route: when
`get_soil_data()` returned `None` the route returns an empty crop list,
category `"Unknown"`, and flashes the no-live-data warning before the
filter ever runs; otherwise it runs the filter and does not flash. -/
def dashboard_recommendation (schema : CatalogSchema)
    (catalog : List CropRecord) (soil : Option Soil)
    (selected_soil : Option String) : DashboardView :=
  match soil with
  | none =>
    { crops := [], soil_category := "Unknown", no_soil_warning := true }
  | some s =>
    let live_bucket := _moisture_bucket_from_pct (some s.moisture)
    { crops := crop_filter schema catalog s selected_soil
      soil_category :=
        if live_bucket = "unknown" then "Unknown" else live_bucket.capitalize
      no_soil_warning := false }

/-- One row of the `alert_history` table as written by `save_alert_to_db`
(src/app.py lines 135-153). -/
structure HistoryRow where
  userid : Option String
  alert_type : String
  title : String
  message : String
  severity : Severity
  category : Category
  created_at : String
deriving DecidableEq, Repr

/-- Embedding of `save_alert_to_db`: the row inserted for one alert. -/
def save_alert_to_db (a : Alert) (userid : Option String) : HistoryRow :=
  { userid := userid
    alert_type := a.type
    title := a.title
    message := a.message
    severity := a.severity
    category := a.category
    created_at := a.timestamp }

/-- The mutable state touched by the alert sink: the in-memory
`FARMER_ALERTS` feed and the durable `alert_history` table. -/
structure SinkState where
  feed : List Alert
  history : List HistoryRow
deriving DecidableEq, Repr

/-- Embedding of `add_alert` (src/app.py lines 284-288).  The Python
parameter is a dict; its falsy values (`None`, `{}`) are modelled by
`none`, and the early `return` leaves both stores untouched.  A truthy
alert is appended to the feed and written through to history. -/
def add_alert (alert : Option Alert) (save_for_user : Option String)
    (st : SinkState) : SinkState :=
  match alert with
  | none => st
  | some a =>
    { feed := st.feed ++ [a]
      history := st.history ++ [save_alert_to_db a save_for_user] }

/-- Replace the timestamp field of an alert (used to state that two
evaluations differ only in their timestamp). -/
def set_timestamp (a : Alert) (ts : String) : Alert := { a with timestamp := ts }

lemma pyRound_zero : pyRound 0 = 0 := by norm_num [pyRound]

lemma le_pyRound {m : ℤ} {q : ℚ} (h : (m : ℚ) ≤ q) : m ≤ pyRound q := by
  have hf : m ≤ ⌊q⌋ := Int.le_floor.mpr h
  unfold pyRound
  split_ifs <;> omega

lemma pyRound_le {m : ℤ} {q : ℚ} (h : q ≤ (m : ℚ)) : pyRound q ≤ m := by
  have hf : ⌊q⌋ ≤ m := by
    have h1 : (⌊q⌋ : ℚ) ≤ (m : ℚ) := le_trans (Int.floor_le q) h
    exact_mod_cast h1
  unfold pyRound
  split_ifs with h1 h2 h3
  · exact hf
  · have hlt : (⌊q⌋ : ℚ) < (m : ℚ) := by linarith
    have : ⌊q⌋ < m := by exact_mod_cast hlt
    omega
  · exact hf
  · have hlt : (⌊q⌋ : ℚ) < (m : ℚ) := by linarith
    have : ⌊q⌋ < m := by exact_mod_cast hlt
    omega

lemma pyRound_cast_le (q : ℚ) : (pyRound q : ℚ) ≤ q + 1/2 := by
  have hfl : (⌊q⌋ : ℚ) ≤ q := Int.floor_le q
  unfold pyRound
  split_ifs with h1 h2 h3 <;> push_cast <;> linarith

lemma pyRound_eq_hundred {q : ℚ} (h1 : 199/2 ≤ q) (h2 : q ≤ 100) :
    pyRound q = 100 := by
  have h99 : (99 : ℤ) ≤ ⌊q⌋ := Int.le_floor.mpr (by push_cast; linarith)
  have h100 : ⌊q⌋ ≤ 100 := by
    have hc : (⌊q⌋ : ℚ) ≤ (100 : ℚ) := le_trans (Int.floor_le q) h2
    exact_mod_cast hc
  rcases (by omega : ⌊q⌋ = 99 ∨ ⌊q⌋ = 100) with hf | hf
  · unfold pyRound
    rw [hf]
    have hr : 1/2 ≤ q - 99 := by linarith
    split_ifs with ha hb hc
    · exfalso; push_cast at ha; linarith
    · rfl
    · exfalso; omega
    · rfl
  · have hge : (100 : ℚ) ≤ q := by
      have := Int.floor_le q
      rw [hf] at this
      push_cast at this
      linarith
    have hq : q = 100 := le_antisymm h2 hge
    unfold pyRound
    rw [hf, hq]
    norm_num

/-- C1 (amended): for every ultrasonic reading `u ≥ 0` the snapshot has
`0 ≤ percent ≤ 100`, `percent = 100` holds exactly for readings within the
rounding tolerance `u ≤ H1/200` (= 0.0475 cm) — not exactly for `u ≤ 0` —
and every reading `u ≥ H1` yields `height_cm = 0` and `percent = 0`. -/
theorem tank_snapshot_percent_spec (u : ℚ) (hu : 0 ≤ u) :
    (0 ≤ (get_tank_snapshot u).percent ∧ (get_tank_snapshot u).percent ≤ 100) ∧
    ((get_tank_snapshot u).percent = 100 ↔ u ≤ TANK_H1_CM / 200) ∧
    (TANK_H1_CM ≤ u →
      (get_tank_snapshot u).height_cm = 0 ∧ (get_tank_snapshot u).percent = 0) := by
  have hpercent : (get_tank_snapshot u).percent =
      pyRound (max 0 (min TANK_H1_CM (TANK_H1_CM - u)) / TANK_H1_CM * 100) := rfl
  have hheight : (get_tank_snapshot u).height_cm =
      round2 (max 0 (min TANK_H1_CM (TANK_H1_CM - u))) := rfl
  set H : ℚ := max 0 (min TANK_H1_CM (TANK_H1_CM - u)) with hH
  have hmin : min TANK_H1_CM (TANK_H1_CM - u) = TANK_H1_CM - u :=
    min_eq_right (by unfold TANK_H1_CM; linarith)
  have hH0 : 0 ≤ H := le_max_left 0 _
  have hHle : H ≤ TANK_H1_CM := by
    rw [hH, hmin]
    unfold TANK_H1_CM
    rw [max_le_iff]
    constructor <;> linarith
  have hraweq : H / TANK_H1_CM * 100 = H * (200/19) := by
    unfold TANK_H1_CM
    field_simp
    ring
  have hraw0 : 0 ≤ H / TANK_H1_CM * 100 := by rw [hraweq]; positivity
  have hraw100 : H / TANK_H1_CM * 100 ≤ 100 := by
    rw [hraweq]
    unfold TANK_H1_CM at hHle
    linarith
  refine ⟨⟨?_, ?_⟩, ⟨?_, ?_⟩, ?_⟩
  · rw [hpercent]
    exact le_pyRound (by push_cast; exact hraw0)
  · rw [hpercent]
    exact pyRound_le (by push_cast; exact hraw100)
  · -- percent = 100 → u ≤ H1/200
    intro hper
    rw [hpercent] at hper
    have hcast := pyRound_cast_le (H / TANK_H1_CM * 100)
    rw [hper] at hcast
    push_cast at hcast
    have hHge : 3781/400 ≤ H := by
      rw [hraweq] at hcast
      linarith
    have hmge : 3781/400 ≤ min TANK_H1_CM (TANK_H1_CM - u) := by
      rcases le_total (min TANK_H1_CM (TANK_H1_CM - u)) 0 with hm | hm
      · rw [hH, max_eq_left hm] at hHge
        linarith
      · rw [hH, max_eq_right hm] at hHge
        exact hHge
    rw [hmin] at hmge
    unfold TANK_H1_CM at hmge ⊢
    linarith
  · -- u ≤ H1/200 → percent = 100
    intro hle
    unfold TANK_H1_CM at hle
    have hHeq : H = TANK_H1_CM - u := by
      rw [hH, hmin]
      exact max_eq_right (by unfold TANK_H1_CM; linarith)
    rw [hpercent]
    apply pyRound_eq_hundred
    · rw [hraweq, hHeq]
      unfold TANK_H1_CM
      linarith
    · exact hraw100
  · -- u ≥ H1: empty tank
    intro hge
    have hHeq : H = 0 := by
      rw [hH, hmin]
      exact max_eq_left (by linarith)
    constructor
    · rw [hheight, hHeq]
      norm_num [round2, pyRound_zero]
    · rw [hpercent, hHeq]
      norm_num [pyRound_zero]

/-- Witness for `tank_snapshot_percent_spec` at the reading `u = 3`. -/
theorem tank_snapshot_percent_spec_witness :
    (0 : ℚ) ≤ 3 ∧ 0 ≤ (get_tank_snapshot 3).percent ∧
      (get_tank_snapshot 3).percent ≤ 100 := by
  have h := tank_snapshot_percent_spec 3 (by norm_num)
  exact ⟨by norm_num, h.1.1, h.1.2⟩

/-- Counterexample to C1 as stated: at the positive reading
`u = 0.01` the snapshot percent rounds to 100 although `u > 0`, so
`percent = 100` is not equivalent to `ultrasonic_cm ≤ 0`. -/
theorem tank_snapshot_percent_hundred_at_positive_reading :
    (get_tank_snapshot (1/100)).percent = 100 ∧ ¬((1/100 : ℚ) ≤ 0) := by
  constructor
  · show pyRound (max 0 (min TANK_H1_CM (TANK_H1_CM - 1/100)) / TANK_H1_CM * 100) = 100
    norm_num [TANK_H1_CM, pyRound]
  · norm_num

/-- C5 (amended): every snapshot satisfies `0 ≤ height_cm ≤ H1`, and its
fields are the *rounded* values of the stated invariant: `height_cm` is
`max 0 (min H1 (H1 - u))` rounded to 2 decimals, `percent` is the rounded
`100·H/H1` of the unrounded height `H`, `volume_cm3` is the rounded
`PI·R²·H` with the code's `PI = 22/7`, and `capacity_cm3` is the rounded
`PI·R²·H1` (= 702 cm³). -/
theorem tank_snapshot_invariant (u : ℚ) :
    (0 ≤ (get_tank_snapshot u).height_cm ∧
      (get_tank_snapshot u).height_cm ≤ TANK_H1_CM) ∧
    (get_tank_snapshot u).height_cm =
      round2 (max 0 (min TANK_H1_CM (TANK_H1_CM - u))) ∧
    (get_tank_snapshot u).percent =
      pyRound (max 0 (min TANK_H1_CM (TANK_H1_CM - u)) / TANK_H1_CM * 100) ∧
    (get_tank_snapshot u).volume_cm3 =
      pyRound (PI_CONST * TANK_R_CM * TANK_R_CM *
        max 0 (min TANK_H1_CM (TANK_H1_CM - u))) ∧
    (get_tank_snapshot u).capacity_cm3 = 702 := by
  have hheight : (get_tank_snapshot u).height_cm =
      round2 (max 0 (min TANK_H1_CM (TANK_H1_CM - u))) := rfl
  set H : ℚ := max 0 (min TANK_H1_CM (TANK_H1_CM - u)) with hH
  have hH0 : 0 ≤ H := le_max_left 0 _
  have hHle : H ≤ TANK_H1_CM := by
    rw [hH]
    unfold TANK_H1_CM
    rw [max_le_iff]
    constructor
    · linarith
    · exact le_trans (min_le_left _ _) (by norm_num [TANK_H1_CM])
  refine ⟨⟨?_, ?_⟩, hheight, rfl, rfl, ?_⟩
  · rw [hheight]
    unfold round2
    have h0 : (0 : ℤ) ≤ pyRound (H * 100) := le_pyRound (by push_cast; linarith)
    have h0' : (0 : ℚ) ≤ (pyRound (H * 100) : ℚ) := by exact_mod_cast h0
    linarith
  · rw [hheight]
    unfold round2
    have h950 : pyRound (H * 100) ≤ 950 := by
      apply pyRound_le
      push_cast
      unfold TANK_H1_CM at hHle
      linarith
    have h950' : (pyRound (H * 100) : ℚ) ≤ 950 := by exact_mod_cast h950
    unfold TANK_H1_CM
    linarith
  · show pyRound (PI_CONST * TANK_R_CM * TANK_R_CM * TANK_H1_CM) = 702
    norm_num [PI_CONST, TANK_R_CM, TANK_H1_CM, pyRound]

/-- Counterexample to C5 as stated: the returned fields are rounded, so
the exact equalities of the claim fail.  At `u = 0.123` the returned
`height_cm` is `9.38`, not the exact clamp `9.377`; and at `u = 0` the
integer `volume_cm3 = 702` differs from the exact `PI·R²·height_cm`. -/
theorem tank_snapshot_invariant_cex :
    (get_tank_snapshot (123/1000)).height_cm ≠
      max 0 (min TANK_H1_CM (TANK_H1_CM - 123/1000)) ∧
    ((get_tank_snapshot 0).volume_cm3 : ℚ) ≠
      PI_CONST * TANK_R_CM * TANK_R_CM * (get_tank_snapshot 0).height_cm := by
  constructor
  · show round2 (max 0 (min TANK_H1_CM (TANK_H1_CM - 123/1000))) ≠ _
    norm_num [TANK_H1_CM, round2, pyRound]
  · have hh : (get_tank_snapshot 0).height_cm = (19/2 : ℚ) := by
      show round2 (max 0 (min TANK_H1_CM (TANK_H1_CM - 0))) = _
      norm_num [TANK_H1_CM, round2, pyRound]
    have hv : (get_tank_snapshot 0).volume_cm3 = 702 := by
      show pyRound (PI_CONST * TANK_R_CM * TANK_R_CM *
        max 0 (min TANK_H1_CM (TANK_H1_CM - 0))) = 702
      norm_num [TANK_H1_CM, TANK_R_CM, PI_CONST, pyRound]
    rw [hh, hv]
    norm_num [PI_CONST, TANK_R_CM]

/-- C3: `check_rain_alert` returns `none` exactly on the empty forecast;
on a non-empty forecast it returns exactly one alert picked by first-match
over the ordered thresholds on `totalRain` and `maxRain`, falling through
to the soil-moisture irrigation call and the good-weather update. -/
theorem check_rain_alert_spec (fc : List ForecastPoint) (w : Weather)
    (soil : Option Soil) (ts : String) :
    (check_rain_alert fc w soil ts = none ↔ fc = []) ∧
    ∀ a, check_rain_alert fc w soil ts = some a →
      ((totalRain fc > 5 ∨ maxRain fc > 2) →
        a.severity = Severity.high ∧ a.title = "🌧 Heavy Rain Alert" ∧
          a.category = Category.weather) ∧
      (¬(totalRain fc > 5 ∨ maxRain fc > 2) →
       (totalRain fc > 1 ∨ maxRain fc > 1/2) →
        a.severity = Severity.medium ∧ a.title = "☔ Rain Expected Today" ∧
          a.category = Category.weather) ∧
      (¬(totalRain fc > 5 ∨ maxRain fc > 2) →
       ¬(totalRain fc > 1 ∨ maxRain fc > 1/2) →
       totalRain fc > 1/10 →
        a.severity = Severity.low ∧ a.title = "🌫 Uncertain Weather" ∧
          a.category = Category.weather) ∧
      (¬(totalRain fc > 5 ∨ maxRain fc > 2) →
       ¬(totalRain fc > 1 ∨ maxRain fc > 1/2) →
       ¬(totalRain fc > 1/10) →
       (∃ s, soil = some s ∧ s.moisture < 40) →
        a.severity = Severity.medium ∧
          a.title = "🌤 No Rain, Irrigation Needed" ∧
          a.category = Category.irrigation) ∧
      (¬(totalRain fc > 5 ∨ maxRain fc > 2) →
       ¬(totalRain fc > 1 ∨ maxRain fc > 1/2) →
       ¬(totalRain fc > 1/10) →
       ¬(∃ s, soil = some s ∧ s.moisture < 40) →
        a.severity = Severity.low ∧ a.title = "🌤 Good Weather Day" ∧
          a.category = Category.weather) := by
  cases fc with
  | nil =>
    refine ⟨by simp [check_rain_alert], ?_⟩
    intro a ha
    simp [check_rain_alert] at ha
  | cons f rest =>
    constructor
    · rcases soil with _ | s
      · simp only [check_rain_alert, Option.map_none']
        split_ifs <;> simp
      · simp only [check_rain_alert, Option.map_some']
        split_ifs <;> simp
    · intro a ha
      rcases soil with _ | s
      · simp only [check_rain_alert, Option.map_none'] at ha
        split_ifs at ha with h1 h2 h3
        · injection ha with hb
          subst hb
          exact ⟨fun _ => ⟨rfl, rfl, rfl⟩, fun hn _ => absurd h1 hn,
            fun hn _ _ => absurd h1 hn, fun hn _ _ _ => absurd h1 hn,
            fun hn _ _ _ => absurd h1 hn⟩
        · injection ha with hb
          subst hb
          exact ⟨fun hA => absurd hA h1, fun _ _ => ⟨rfl, rfl, rfl⟩,
            fun _ hn _ => absurd h2 hn, fun _ hn _ _ => absurd h2 hn,
            fun _ hn _ _ => absurd h2 hn⟩
        · injection ha with hb
          subst hb
          exact ⟨fun hA => absurd hA h1, fun _ hB => absurd hB h2,
            fun _ _ _ => ⟨rfl, rfl, rfl⟩, fun _ _ hn _ => absurd h3 hn,
            fun _ _ hn _ => absurd h3 hn⟩
        · injection ha with hb
          subst hb
          refine ⟨fun hA => absurd hA h1, fun _ hB => absurd hB h2,
            fun _ _ hC => absurd hC h3, fun _ _ _ hex => ?_,
            fun _ _ _ _ => ⟨rfl, rfl, rfl⟩⟩
          obtain ⟨s', hs', -⟩ := hex
          exact Option.noConfusion hs'
      · simp only [check_rain_alert, Option.map_some'] at ha
        split_ifs at ha with h1 h2 h3 h4
        · injection ha with hb
          subst hb
          exact ⟨fun _ => ⟨rfl, rfl, rfl⟩, fun hn _ => absurd h1 hn,
            fun hn _ _ => absurd h1 hn, fun hn _ _ _ => absurd h1 hn,
            fun hn _ _ _ => absurd h1 hn⟩
        · injection ha with hb
          subst hb
          exact ⟨fun hA => absurd hA h1, fun _ _ => ⟨rfl, rfl, rfl⟩,
            fun _ hn _ => absurd h2 hn, fun _ hn _ _ => absurd h2 hn,
            fun _ hn _ _ => absurd h2 hn⟩
        · injection ha with hb
          subst hb
          exact ⟨fun hA => absurd hA h1, fun _ hB => absurd hB h2,
            fun _ _ _ => ⟨rfl, rfl, rfl⟩, fun _ _ hn _ => absurd h3 hn,
            fun _ _ hn _ => absurd h3 hn⟩
        · injection ha with hb
          subst hb
          exact ⟨fun hA => absurd hA h1, fun _ hB => absurd hB h2,
            fun _ _ hC => absurd hC h3, fun _ _ _ _ => ⟨rfl, rfl, rfl⟩,
            fun _ _ _ hnex => absurd ⟨s, rfl, h4⟩ hnex⟩
        · injection ha with hb
          subst hb
          refine ⟨fun hA => absurd hA h1, fun _ hB => absurd hB h2,
            fun _ _ hC => absurd hC h3, fun _ _ _ hex => ?_,
            fun _ _ _ _ => ⟨rfl, rfl, rfl⟩⟩
          obtain ⟨s', hs', hm⟩ := hex
          injection hs' with he
          subst he
          exact absurd hm h4

/-- Witness for `check_rain_alert_spec`: a one-point forecast with 6 mm of
rain yields the high-severity heavy-rain alert. -/
theorem check_rain_alert_spec_witness :
    ∃ a, check_rain_alert [⟨"09:00", 6, "rain", 80⟩] ⟨22, 70, 0, 5⟩ none "T" =
        some a ∧ a.severity = Severity.high := by
  have h := check_rain_alert_spec [⟨"09:00", 6, "rain", 80⟩] ⟨22, 70, 0, 5⟩ none "T"
  cases hres : check_rain_alert [⟨"09:00", 6, "rain", 80⟩] ⟨22, 70, 0, 5⟩ none "T" with
  | none => exact absurd (h.1.mp hres) (by simp)
  | some a =>
    refine ⟨a, rfl, ?_⟩
    have hheavy : totalRain [(⟨"09:00", 6, "rain", 80⟩ : ForecastPoint)] > 5 ∨
        maxRain [(⟨"09:00", 6, "rain", 80⟩ : ForecastPoint)] > 2 := by
      left
      norm_num [totalRain]
    exact ((h.2 a hres).1 hheavy).1

/-- C4: whenever the tank read succeeds, `check_water_tank_alert` returns
exactly one alert, chosen by first-match on the snapshot percent, and its
message always embeds the live percent, volume and capacity. -/
theorem check_water_tank_alert_spec (snap : TankSnapshot) (ts : String) :
    ∃ a, check_water_tank_alert (some snap) ts = some a ∧
      a.message = tank_alert_message snap.percent snap.volume_cm3
        snap.capacity_cm3 ∧
      a.category = Category.water ∧
      (snap.percent ≥ 90 →
        a.severity = Severity.high ∧ a.title = "💧 Water Tank Full") ∧
      (snap.percent < 90 → snap.percent ≤ 20 →
        a.severity = Severity.high ∧ a.title = "⚠️ Water Tank Low") ∧
      (snap.percent < 90 → 20 < snap.percent → snap.percent ≤ 40 →
        a.severity = Severity.medium ∧
          a.title = "🔔 Water Tank Getting Low") ∧
      (snap.percent < 90 → 40 < snap.percent →
        a.severity = Severity.low ∧
          a.title = "💧 Water Tank Status Update") := by
  simp only [check_water_tank_alert]
  split_ifs with h1 h2 h3
  · exact ⟨_, rfl, rfl, rfl, fun _ => ⟨rfl, rfl⟩, fun hn _ => absurd h1 (by omega),
      fun hn _ _ => absurd h1 (by omega), fun hn _ => absurd h1 (by omega)⟩
  · exact ⟨_, rfl, rfl, rfl, fun hc => absurd hc (by omega),
      fun _ _ => ⟨rfl, rfl⟩, fun _ hc _ => absurd hc (by omega),
      fun _ hc => absurd hc (by omega)⟩
  · exact ⟨_, rfl, rfl, rfl, fun hc => absurd hc (by omega),
      fun _ hc => absurd hc (by omega), fun _ _ _ => ⟨rfl, rfl⟩,
      fun _ hc => absurd hc (by omega)⟩
  · exact ⟨_, rfl, rfl, rfl, fun hc => absurd hc (by omega),
      fun _ hc => absurd hc (by omega), fun _ _ hc => absurd hc (by omega),
      fun _ _ => ⟨rfl, rfl⟩⟩

/-- Witness for `check_water_tank_alert_spec`: a snapshot at 95 % yields
the high-severity tank-full alert with the live values in its message. -/
theorem check_water_tank_alert_spec_witness :
    ∃ a, check_water_tank_alert (some ⟨0, 19/2, 667, 702, 95⟩) "T" = some a ∧
      a.severity = Severity.high ∧ a.message = tank_alert_message 95 667 702 := by
  obtain ⟨a, heq, hmsg, -, hfull, -⟩ :=
    check_water_tank_alert_spec ⟨0, 19/2, 667, 702, 95⟩ "T"
  exact ⟨a, heq, (hfull (by norm_num)).1, hmsg⟩

/-- C2 (amended): when the soil fetch returns the absent sentinel *and*
neither rain branch of the irrigation tree fires, the tree returns the
low-severity sensor-offline alert; with heavy or medium rain the rain
branches win even though soil is absent, so the outcome is not independent
of the weather and forecast values. -/
theorem irrigation_sensor_offline_of_no_rain (w : Weather)
    (fc : List ForecastPoint) (ts : String) (hne : fc ≠ [])
    (h1 : ¬(totalRain fc > 5 ∨ maxRain fc > 2 ∨ w.rainfall > 1))
    (h2 : ¬(totalRain fc > 1 ∨ maxRain fc > 1/2 ∨ w.rainfall > 1/10)) :
    (check_weather_irrigation_recommendation (Except.ok (w, none, fc))
        ts).severity = Severity.low ∧
    (check_weather_irrigation_recommendation (Except.ok (w, none, fc))
        ts).title = "🌤️ Normal Weather - Sensor Offline" ∧
    (check_weather_irrigation_recommendation (Except.ok (w, none, fc))
        ts).category = Category.irrigation := by
  cases fc with
  | nil => exact absurd rfl hne
  | cons f rest =>
    simp only [check_weather_irrigation_recommendation]
    rw [show (if (f :: rest).isEmpty then (0 : ℚ) else totalRain (f :: rest)) =
        totalRain (f :: rest) from rfl]
    split_ifs
    exact ⟨rfl, rfl, rfl⟩

/-- Witness for `irrigation_sensor_offline_of_no_rain` on a dry one-point
forecast with soil absent. -/
theorem irrigation_sensor_offline_witness :
    (check_weather_irrigation_recommendation
        (Except.ok ((⟨22, 70, 0, 5⟩ : Weather), (none : Option Soil),
          [(⟨"00:00", 0, "clear", 70⟩ : ForecastPoint)])) "T").severity =
      Severity.low := by
  have h := irrigation_sensor_offline_of_no_rain ⟨22, 70, 0, 5⟩
    [⟨"00:00", 0, "clear", 70⟩] "T" (by simp)
    (by norm_num [totalRain, maxRain]) (by norm_num [totalRain, maxRain])
  exact h.1

/-- Counterexample to C2 as stated: with soil absent but 6 mm of forecast
rain, the irrigation tree returns the high-severity heavy-rain branch, not
the low-severity sensor-offline branch. -/
theorem irrigation_soil_absent_overridden_by_rain :
    (check_weather_irrigation_recommendation
        (Except.ok ((⟨22, 70, 0, 5⟩ : Weather), (none : Option Soil),
          [(⟨"12:00", 6, "rain", 80⟩ : ForecastPoint)])) "T").severity =
      Severity.high ∧
    (check_weather_irrigation_recommendation
        (Except.ok ((⟨22, 70, 0, 5⟩ : Weather), (none : Option Soil),
          [(⟨"12:00", 6, "rain", 80⟩ : ForecastPoint)])) "T").title ≠
      "🌤️ Normal Weather - Sensor Offline" := by
  simp only [check_weather_irrigation_recommendation]
  rw [if_pos]
  · exact ⟨rfl, by decide⟩
  · left
    norm_num [totalRain]

/-- C6: the irrigation-recommendation tree is total — every fetch outcome,
including the unexpected-exception case, yields an irrigation-category
alert — and the exception case yields the medium-severity
weather-data-unavailable alert. -/
theorem irrigation_recommendation_total_and_fallback :
    (∀ fetched ts,
      (check_weather_irrigation_recommendation fetched ts).category =
        Category.irrigation) ∧
    (∀ ts,
      (check_weather_irrigation_recommendation (Except.error ()) ts).severity =
        Severity.medium ∧
      (check_weather_irrigation_recommendation (Except.error ()) ts).title =
        "⚠️ Weather Data Unavailable" ∧
      (check_weather_irrigation_recommendation (Except.error ()) ts).type =
        "irrigation_recommendation") := by
  constructor
  · intro fetched ts
    rcases fetched with _ | ⟨w, soil, fc⟩
    · rfl
    · rcases soil with _ | s
      · simp only [check_weather_irrigation_recommendation]
        split_ifs <;> rfl
      · simp only [check_weather_irrigation_recommendation]
        split_ifs <;> rfl
  · intro ts
    exact ⟨rfl, rfl, rfl⟩

/-- C7: when `get_soil_data` returns the absent sentinel, the dashboard
recommendation path returns an empty crop list — whatever the catalog,
its schema and the selected soil type — with the distinct no-live-data
signal, which is never raised when soil data is present. -/
theorem dashboard_absent_soil_spec :
    (∀ (schema : CatalogSchema) (catalog : List CropRecord)
        (selected_soil : Option String),
      dashboard_recommendation schema catalog none selected_soil =
        { crops := [], soil_category := "Unknown", no_soil_warning := true }) ∧
    (∀ (schema : CatalogSchema) (catalog : List CropRecord) (s : Soil)
        (selected_soil : Option String),
      (dashboard_recommendation schema catalog (some s)
          selected_soil).no_soil_warning = false) :=
  ⟨fun _ _ _ => rfl, fun _ _ _ _ => rfl⟩

/-- C8: the moisture bucket of a numeric moisture percentage follows the
fixed breakpoints (≥90 flooded, >70 high, ≥40 medium, <40 low) and is
never the unknown bucket; unknown arises exactly from the absent input. -/
theorem moisture_bucket_spec :
    (∀ m : ℚ,
      ((_moisture_bucket_from_pct (some m) = "flooded") ↔ 90 ≤ m) ∧
      ((_moisture_bucket_from_pct (some m) = "high") ↔ (70 < m ∧ m < 90)) ∧
      ((_moisture_bucket_from_pct (some m) = "medium") ↔ (40 ≤ m ∧ m ≤ 70)) ∧
      ((_moisture_bucket_from_pct (some m) = "low") ↔ m < 40) ∧
      _moisture_bucket_from_pct (some m) ≠ "unknown") ∧
    _moisture_bucket_from_pct none = "unknown" := by
  refine ⟨?_, rfl⟩
  intro m
  simp only [_moisture_bucket_from_pct]
  split_ifs with h1 h2 h3
  · exact ⟨iff_of_true rfl h1,
      iff_of_false (by decide) (by rintro ⟨-, hb⟩; linarith),
      iff_of_false (by decide) (by rintro ⟨-, hb⟩; linarith),
      iff_of_false (by decide) (by intro hb; linarith),
      by decide⟩
  · have h1' : m < 90 := not_le.mp h1
    exact ⟨iff_of_false (by decide) (by intro hb; linarith),
      iff_of_true rfl ⟨h2, h1'⟩,
      iff_of_false (by decide) (by rintro ⟨-, hb⟩; linarith),
      iff_of_false (by decide) (by intro hb; linarith),
      by decide⟩
  · have h2' : m ≤ 70 := not_lt.mp h2
    exact ⟨iff_of_false (by decide) (by intro hb; linarith),
      iff_of_false (by decide) (by rintro ⟨hb, -⟩; linarith),
      iff_of_true rfl ⟨h3, h2'⟩,
      iff_of_false (by decide) (by intro hb; linarith),
      by decide⟩
  · have h3' : m < 40 := not_le.mp h3
    exact ⟨iff_of_false (by decide) (by intro hb; linarith),
      iff_of_false (by decide) (by rintro ⟨hb, -⟩; linarith),
      iff_of_false (by decide) (by rintro ⟨hb, -⟩; linarith),
      iff_of_true rfl h3',
      by decide⟩

/-- C9: re-evaluating the rain tree on identical frozen inputs changes
nothing but the timestamp, and recording both results through the sink
appends two entries to the feed and two rows to history, with no
deduplication. -/
theorem evaluator_idempotent_modulo_timestamp :
    ∀ (fc : List ForecastPoint) (w : Weather) (soil : Option Soil)
      (ts1 ts2 : String) (st : SinkState) (a1 a2 : Alert),
      (check_rain_alert fc w soil ts1).map (fun a => set_timestamp a ts2) =
        check_rain_alert fc w soil ts2 ∧
      ((check_rain_alert fc w soil ts1).all fun a => a.timestamp == ts1) =
        true ∧
      add_alert (some a2) none (add_alert (some a1) none st) =
        { feed := st.feed ++ [a1, a2]
          history := st.history ++
            [save_alert_to_db a1 none, save_alert_to_db a2 none] } := by
  intro fc w soil ts1 ts2 st a1 a2
  refine ⟨?_, ?_, ?_⟩
  · cases fc with
    | nil => rfl
    | cons f rest =>
      rcases soil with _ | s <;>
        · simp only [check_rain_alert, Option.map_none', Option.map_some']
          split_ifs <;> rfl
  · cases fc with
    | nil => rfl
    | cons f rest =>
      rcases soil with _ | s <;>
        · simp only [check_rain_alert, Option.map_none', Option.map_some']
          split_ifs <;> simp
  · simp [add_alert, List.append_assoc]

/-- C10: `add_alert` with a falsy alert value leaves the feed and the
history unchanged; with a truthy alert it appends exactly one feed entry
and exactly one history row. -/
theorem add_alert_frame_spec :
    (∀ (u : Option String) (st : SinkState), add_alert none u st = st) ∧
    (∀ (a : Alert) (u : Option String) (st : SinkState),
      (add_alert (some a) u st).feed = st.feed ++ [a] ∧
      (add_alert (some a) u st).history =
        st.history ++ [save_alert_to_db a u]) :=
  ⟨fun _ _ => rfl, fun _ _ _ => ⟨rfl, rfl⟩⟩
